import Mathlib

/-!
Verification of the timezone-window logic of `server.js`.

The functions under scrutiny are `isInDST`, `getTimezoneLabel`,
`createUserTimezoneDateRange` and `createUserTimezoneDay` (server.js lines
14-74), the inline DST detection in `/api/calendar/analyze` (lines 1013-1017),
and the `toLocaleTimeString`-based display formatting in `/api/calendar/today`
and `/api/calendar/events` (lines 466-488 and 550-566).

The embedding follows the ECMAScript date model: a `Date` is an absolute time
value in milliseconds since the Unix epoch (an `Int`), and the host
environment's local timezone enters through `LocalTime` / `UTC` conversions.
A timezone is modelled as a pair of offset functions quoted in minutes with
the `getTimezoneOffset` sign convention (UTC minus local, so US Eastern
standard time is `300`): `offAt` gives the offset at an absolute instant
(ECMAScript `LocalTime`), and `offAtLocal` gives the offset chosen when a
local wall-clock reading is converted back to an absolute instant
(ECMAScript `UTC`, i.e. `LocalTZA(t, false)`).
-/

namespace EA

/-- Milliseconds per calendar day, as in the ECMAScript date model (`msPerDay`). -/
def msPerDay : Int := 86400000

/-- Milliseconds per minute, the unit JavaScript `getTimezoneOffset` is quoted in. -/
def msPerMinute : Int := 60000

/-- ECMAScript `Day(t)`: the day number containing the time value `t`,
`floor(t / msPerDay)`. `Int` division in Lean is Euclidean division, which for
the positive divisor `msPerDay` coincides with floor division. -/
def dayNumber (t : Int) : Int := t / msPerDay

/-- ECMAScript `TimeWithinDay(t) = t modulo msPerDay` (always in `[0, msPerDay)`). -/
def timeWithinDay (t : Int) : Int := t % msPerDay

/-- A civil timezone as the JavaScript runtime sees one: `offAt t` is
`getTimezoneOffset` at the absolute instant `t` (minutes, UTC minus local);
`offAtLocal lt` is the offset the runtime uses when turning the local
wall-clock milliseconds reading `lt` into an absolute instant (the
ECMAScript `UTC` operation / `LocalTZA(t, false)`). -/
structure Zone where
  offAt : Int → Int
  offAtLocal : Int → Int

/-- ECMAScript `LocalTime(t)`: the local wall-clock milliseconds reading of the
absolute instant `t` in zone `z`. -/
def localTime (z : Zone) (t : Int) : Int := t - msPerMinute * z.offAt t

/-- ECMAScript `UTC(lt)`: the absolute instant a runtime assigns to the local
wall-clock reading `lt` in zone `z`. -/
def utcFromLocal (z : Zone) (lt : Int) : Int := lt + msPerMinute * z.offAtLocal lt

/-- A zone is coherent when converting a local wall-clock reading to an absolute
instant and asking for the offset again returns the offset that was used; real
zones satisfy this at every local reading outside a DST transition gap or
overlap hour, and fixed-offset zones satisfy it everywhere. -/
def Coherent (z : Zone) : Prop :=
  ∀ lt : Int, z.offAt (utcFromLocal z lt) = z.offAtLocal lt

/-- ECMAScript `DayFromYear(y)`: the day number of January 1 of year `y`
(`365*(y-1970) + floor((y-1969)/4) - floor((y-1901)/100) + floor((y-1601)/400)`). -/
def daysFromYear (y : Int) : Int :=
  365 * (y - 1970) + (y - 1969) / 4 - (y - 1901) / 100 + (y - 1601) / 400

/-- Gregorian leap-year test, as in ECMAScript `DaysInYear`. -/
def isLeapYear (y : Int) : Bool :=
  (y % 4 == 0 && y % 100 != 0) || y % 400 == 0

/-- Days elapsed before month `m` (0-based month index, as JavaScript `Date`
constructors take it) within a year, as in ECMAScript `DayWithinYear` tables. -/
def monthStartDay (leap : Bool) (m : Nat) : Int :=
  let l : Int := if leap then 1 else 0
  match m with
  | 0 => 0
  | 1 => 31
  | 2 => 59 + l
  | 3 => 90 + l
  | 4 => 120 + l
  | 5 => 151 + l
  | 6 => 181 + l
  | 7 => 212 + l
  | 8 => 243 + l
  | 9 => 273 + l
  | 10 => 304 + l
  | _ => 334 + l

/-- The calendar year containing day number `d` (ECMAScript `YearFromTime` on
`d * msPerDay`), computed by the standard civil-from-days decomposition of the
proleptic Gregorian calendar into 400-year eras. -/
def yearOfDayNumber (d : Int) : Int :=
  let z := d + 719468
  let era := z / 146097
  let doe := z % 146097
  let yoe := (doe - doe / 1460 + doe / 36524 - doe / 146096) / 365
  let y := yoe + era * 400
  let doy := doe - (365 * yoe + yoe / 4 - yoe / 100)
  let mp := (5 * doy + 2) / 153
  if mp ≥ 10 then y + 1 else y

/-- JavaScript `date.getFullYear()`: the calendar year of `t`'s local reading in
the host zone `H`. -/
def getFullYear (H : Zone) (t : Int) : Int :=
  yearOfDayNumber (dayNumber (localTime H t))

/-- JavaScript `new Date(y, m, d)` in host zone `H`: local midnight of the given
local calendar fields (`m` is the 0-based month index), converted to an absolute
instant by the ECMAScript `UTC` operation. -/
def mkDateJS (H : Zone) (y : Int) (m : Nat) (d : Int) : Int :=
  utcFromLocal H (msPerDay * (daysFromYear y + monthStartDay (isLeapYear y) m + (d - 1)))

/-- The `jan` quantity of `isInDST` (server.js line 15):
`new Date(date.getFullYear(), 0, 1).getTimezoneOffset()`. -/
def janOffset (H : Zone) (t : Int) : Int :=
  H.offAt (mkDateJS H (getFullYear H t) 0 1)

/-- The `jul` quantity of `isInDST` (server.js line 16):
`new Date(date.getFullYear(), 6, 1).getTimezoneOffset()`. -/
def julOffset (H : Zone) (t : Int) : Int :=
  H.offAt (mkDateJS H (getFullYear H t) 6 1)

/-- `isInDST` (server.js lines 14-18):
`Math.max(jan, jul) !== date.getTimezoneOffset()`. The function consults only
the host environment `H`; it takes no timezone argument. The same expression is
inlined in `/api/calendar/analyze` (server.js lines 1013-1016). -/
def isInDST (H : Zone) (t : Int) : Bool :=
  max (janOffset H t) (julOffset H t) != H.offAt t

/-- `getTimezoneLabel` (server.js lines 23-25):
`isInDST(date) ? 'EDT' : 'EST'`, hardcoded to the US Eastern abbreviation pair
and, like `isInDST`, a function of the host environment only. -/
def getTimezoneLabel (H : Zone) (t : Int) : String :=
  if isInDST H t then "EDT" else "EST"

/-- The host platform's timezone database: resolves an IANA name to a zone, or
nothing when the identifier is unresolvable (in which case `toLocaleString`
with that `timeZone` option throws a `RangeError`). -/
def TZDB : Type := String → Option Zone

/-- The error channel of the JavaScript runtime relevant here: the `RangeError`
thrown by `toLocaleString` / `toLocaleTimeString` for an invalid `timeZone`. -/
inductive JsError where
  | invalidTimeZone
deriving DecidableEq, Repr

/-- Truncation of a local milliseconds reading to whole seconds: `en-US`
`toLocaleString` prints no milliseconds, so reparsing its output loses the
sub-second part of the local reading. -/
def truncSec (lt : Int) : Int := lt - lt % 1000

/-- The idiom `new Date(now.toLocaleString('en-US', { timeZone: name }))`
(server.js lines 33 and 57): format `t`'s local fields in the named zone, then
parse that string as a local time of the host zone `H`. Formatting projects `t`
to its local reading in the named zone (whole seconds only) and parsing
rebuilds an absolute instant from those fields via the host's `UTC` operation;
an unresolvable name makes `toLocaleString` throw a `RangeError`. -/
def toLocaleParse (H : Zone) (db : TZDB) (name : String) (t : Int) : Except JsError Int :=
  match db name with
  | none => .error .invalidTimeZone
  | some z => .ok (utcFromLocal H (truncSec (localTime z t)))

/-- JavaScript `d.setHours(hh, mm, ss, ms)` in host zone `H` (ECMAScript:
`UTC(MakeDate(Day(LocalTime(t)), MakeTime(hh, mm, ss, ms)))`): keep the local
day, replace the local time of day. -/
def setHoursJS (H : Zone) (t hh mm ss ms : Int) : Int :=
  utcFromLocal H (msPerDay * dayNumber (localTime H t)
    + (hh * 3600000 + mm * 60000 + ss * 1000 + ms))

/-- The idiom `d.setDate(d.getDate() + k)` in host zone `H`. ECMAScript
`setDate` computes `UTC(MakeDate(MakeDay(y, m, dt), TimeWithinDay(LocalTime(t))))`
with `y`, `m` the local year and month of `t` and `dt = getDate() + k`;
since `MakeDay` is linear in its day argument and `MakeDay` applied to `t`'s own
local fields is `Day(LocalTime(t))`, this shifts the local day number by `k`
while keeping the local time of day. -/
def setDatePlus (H : Zone) (t k : Int) : Int :=
  utcFromLocal H (msPerDay * (dayNumber (localTime H t) + k)
    + timeWithinDay (localTime H t))

/-- The window record returned by `createUserTimezoneDateRange` and
`createUserTimezoneDay` (server.js lines 41-47 and 67-73). -/
structure DateWindow where
  start : Int
  «end» : Int
  userTimezone : String
  timezoneLabel : String
deriving DecidableEq, Repr

/-- `createUserTimezoneDateRange(userTimezone, days)` (server.js lines 30-48),
with the host zone `H`, the platform timezone database `db` and the wall clock
`now` made explicit. In the source, `userTimezone` defaults to
`'America/New_York'` and `days` to `7`. -/
def createUserTimezoneDateRange (H : Zone) (db : TZDB) (userTimezone : String)
    (days : Int) (now : Int) : Except JsError DateWindow :=
  match toLocaleParse H db userTimezone now with
  | .error e => .error e
  | .ok parsed =>
    let startDate := setHoursJS H parsed 0 0 0 0
    let endDate := setHoursJS H (setDatePlus H startDate days) 23 59 59 999
    .ok { start := startDate, «end» := endDate, userTimezone := userTimezone,
          timezoneLabel := getTimezoneLabel H now }

/-- `createUserTimezoneDay(userTimezone, daysOffset)` (server.js lines 53-74),
with the host zone `H`, the platform timezone database `db` and the wall clock
`now` made explicit. In the source, `userTimezone` defaults to
`'America/New_York'` and `daysOffset` to `0`. -/
def createUserTimezoneDay (H : Zone) (db : TZDB) (userTimezone : String)
    (daysOffset : Int) (now : Int) : Except JsError DateWindow :=
  match toLocaleParse H db userTimezone now with
  | .error e => .error e
  | .ok parsed =>
    let targetDate := setDatePlus H parsed daysOffset
    let startOfDay := setHoursJS H targetDate 0 0 0 0
    let endOfDay := setHoursJS H targetDate 23 59 59 999
    .ok { start := startOfDay, «end» := endOfDay, userTimezone := userTimezone,
          timezoneLabel := getTimezoneLabel H now }

/-- ECMAScript `HourFromTime` applied to a local reading. -/
def hourFromTime (lt : Int) : Int := (lt / 3600000) % 24

/-- ECMAScript `MinFromTime` applied to a local reading. -/
def minFromTime (lt : Int) : Int := (lt / 60000) % 60

/-- The `minute: '2-digit'` rendering: two digits, zero-padded. -/
def pad2 (n : Int) : String := if n < 10 then "0" ++ toString n else toString n

/-- The 12-hour clock hour shown by `en-US` formatting with `hour12: true`:
hours run 12, 1, 2, ..., 11. -/
def hour12 (hh : Int) : Int := if hh % 12 = 0 then 12 else hh % 12

/-- The AM/PM day-period marker of `en-US` formatting. -/
def meridiem (hh : Int) : String := if hh < 12 then "AM" else "PM"

/-- `t.toLocaleTimeString('en-US', { hour: 'numeric', minute: '2-digit',
hour12: true, timeZone: ... })` with the `timeZone` option already resolved to
`z` (server.js lines 550-566 in `/api/calendar/today`, and the same option set
on lines 466-471 and 493-499 in `/api/calendar/events`): the instant's local
clock fields rendered as an unpadded 12-hour hour, a colon, a zero-padded
two-digit minute, a space and the AM/PM marker — and nothing else. -/
def toLocaleTimeStringHM (z : Zone) (t : Int) : String :=
  let lt := localTime z t
  toString (hour12 (hourFromTime lt)) ++ ":" ++ pad2 (minFromTime lt)
    ++ " " ++ meridiem (hourFromTime lt)

/-- The same formatting call with the `timeZone` option still a name to be
resolved against the platform database: an unresolvable name throws. -/
def toLocaleTimeStringByName (db : TZDB) (name : String) (t : Int) :
    Except JsError String :=
  match db name with
  | none => .error .invalidTimeZone
  | some z => .ok (toLocaleTimeStringHM z t)

/-- The caller-side assembly
`` `${startTimeFormatted} - ${endTimeFormatted} ${todayRange.timezoneLabel}` ``
(server.js line 567, and `displayTimeRange` on line 487): the timezone
abbreviation is appended by the caller, outside the formatted times. -/
def displayTime (z : Zone) (t1 t2 : Int) (label : String) : String :=
  toLocaleTimeStringHM z t1 ++ " - " ++ toLocaleTimeStringHM z t2 ++ " " ++ label

/-- A fixed-offset zone: the same offset at every instant and every local
reading (for offset `0` this is the behaviour of a host running on UTC). -/
def fixedZone (c : Int) : Zone := { offAt := fun _ => c, offAtLocal := fun _ => c }

/-- America/New_York with its 2025 rules: EST (offset 300) until the spring
transition 2025-03-09T07:00Z, EDT (offset 240) until the fall transition
2025-11-02T06:00Z, then EST again. `offAtLocal` places its boundaries at the
local readings 2025-03-09T03:00 and 2025-11-02T02:00, so the nonexistent and
the repeated local hour both resolve with the pre-transition offset, as
ECMAScript prescribes. Used as concrete test data for host environments and
zone arguments. -/
def ny2025 : Zone :=
  { offAt := fun t =>
      if t < 1741503600000 then 300 else if t < 1762063200000 then 240 else 300,
    offAtLocal := fun lt =>
      if lt < 1741489200000 then 300 else if lt < 1762048800000 then 240 else 300 }

/-- A concrete platform timezone database for the examples: it resolves
`America/New_York` (2025 rules) and `UTC`, and nothing else. -/
def db0 : TZDB := fun name =>
  if name = "America/New_York" then some ny2025
  else if name = "UTC" then some (fixedZone 0) else none

/-- Follows the specification's words in §4.1, with the zone parameter the
specification gives the operation: `janOffsetMinutes` is the zone's offset at
January 1 00:00 local of the instant's year, `julOffsetMinutes` the offset at
July 1 00:00 local, and
`isDST(instant) == (offsetAt(instant) != max(janOffsetMinutes, julOffsetMinutes))`. -/
def isDaylightSavingSpec (z : Zone) (t : Int) : Bool :=
  let y := yearOfDayNumber (dayNumber (localTime z t))
  let jan := z.offAt (mkDateJS z y 0 1)
  let jul := z.offAt (mkDateJS z y 6 1)
  max jan jul != z.offAt t


/-- The local day number of the instant produced by parsing `now`'s local
reading in zone `Z` back through the host zone `H` — the civil date both
window constructors anchor their windows to. -/
def anchorDay (H Z : Zone) (now : Int) : Int :=
  dayNumber (localTime H (utcFromLocal H (truncSec (localTime Z now))))

/-- The characters that can occur in the output of the embedded
`toLocaleTimeString` call: digits, the colon, the space and the AM/PM letters. -/
def allowedChars : List Char :=
  ['0', '1', '2', '3', '4', '5', '6', '7', '8', '9', ':', ' ', 'A', 'P', 'M']


/-- Coherence lets a local wall-clock reading round-trip: converting it to an
absolute instant and projecting back yields the same reading. -/
theorem coherent_localTime_utcFromLocal {H : Zone} (hC : Coherent H) (lt : Int) :
    localTime H (utcFromLocal H lt) = lt := by
  unfold localTime
  rw [hC lt]
  unfold utcFromLocal
  ring

/-- When the platform database resolves the name, the parse idiom returns the
reparsed instant. -/
theorem toLocaleParse_ok {db : TZDB} {name : String} {Z : Zone} (H : Zone) (t : Int)
    (hdb : db name = some Z) :
    toLocaleParse H db name t = .ok (utcFromLocal H (truncSec (localTime Z t))) := by
  unfold toLocaleParse
  rw [hdb]

/-- Normal form of `createUserTimezoneDay` over a coherent host: the window runs
from the host-local midnight of the anchor day shifted by `k` to the last
millisecond of that host-local day, labelled at the reference instant. -/
theorem createUserTimezoneDay_eq (H Z : Zone) (db : TZDB) (name : String) (k now : Int)
    (hdb : db name = some Z) (hC : Coherent H) :
    createUserTimezoneDay H db name k now
      = .ok ⟨utcFromLocal H (msPerDay * (anchorDay H Z now + k)),
             utcFromLocal H (msPerDay * (anchorDay H Z now + k) + 86399999),
             name, getTimezoneLabel H now⟩ := by
  have hltD : localTime H (setDatePlus H (utcFromLocal H (truncSec (localTime Z now))) k)
      = msPerDay * (dayNumber (localTime H (utcFromLocal H (truncSec (localTime Z now)))) + k)
        + timeWithinDay (localTime H (utcFromLocal H (truncSec (localTime Z now)))) :=
    coherent_localTime_utcFromLocal hC _
  have hdn : dayNumber (localTime H (setDatePlus H (utcFromLocal H (truncSec (localTime Z now))) k))
      = anchorDay H Z now + k := by
    rw [hltD]
    unfold anchorDay dayNumber timeWithinDay msPerDay
    omega
  unfold createUserTimezoneDay
  rw [toLocaleParse_ok H now hdb]
  simp only [setHoursJS, hdn]
  norm_num

/-- Normal form of `createUserTimezoneDateRange` over a coherent host: the
window runs from the host-local midnight of the anchor day to the last
millisecond of the day `days` later, labelled at the reference instant. -/
theorem createUserTimezoneDateRange_eq (H Z : Zone) (db : TZDB) (name : String)
    (days now : Int) (hdb : db name = some Z) (hC : Coherent H) :
    createUserTimezoneDateRange H db name days now
      = .ok ⟨utcFromLocal H (msPerDay * anchorDay H Z now),
             utcFromLocal H (msPerDay * (anchorDay H Z now + days) + 86399999),
             name, getTimezoneLabel H now⟩ := by
  have hD : anchorDay H Z now
      = dayNumber (localTime H (utcFromLocal H (truncSec (localTime Z now)))) := rfl
  have hstart : setHoursJS H (utcFromLocal H (truncSec (localTime Z now))) 0 0 0 0
      = utcFromLocal H (msPerDay * anchorDay H Z now) := by
    unfold setHoursJS
    rw [hD]
    norm_num
  have hlt1 : localTime H (utcFromLocal H (msPerDay * anchorDay H Z now))
      = msPerDay * anchorDay H Z now := coherent_localTime_utcFromLocal hC _
  have hshift : setDatePlus H (utcFromLocal H (msPerDay * anchorDay H Z now)) days
      = utcFromLocal H (msPerDay * (anchorDay H Z now + days)) := by
    unfold setDatePlus
    rw [hlt1]
    have h1 : dayNumber (msPerDay * anchorDay H Z now) = anchorDay H Z now := by
      unfold dayNumber msPerDay; omega
    have h2 : timeWithinDay (msPerDay * anchorDay H Z now) = 0 := by
      unfold timeWithinDay msPerDay; omega
    rw [h1, h2]
    norm_num
  have hlt2 : localTime H (utcFromLocal H (msPerDay * (anchorDay H Z now + days)))
      = msPerDay * (anchorDay H Z now + days) := coherent_localTime_utcFromLocal hC _
  have hend : setHoursJS H (utcFromLocal H (msPerDay * (anchorDay H Z now + days))) 23 59 59 999
      = utcFromLocal H (msPerDay * (anchorDay H Z now + days) + 86399999) := by
    unfold setHoursJS
    rw [hlt2]
    have h1 : dayNumber (msPerDay * (anchorDay H Z now + days)) = anchorDay H Z now + days := by
      unfold dayNumber msPerDay; omega
    rw [h1]
    norm_num
  unfold createUserTimezoneDateRange
  rw [toLocaleParse_ok H now hdb]
  simp only [hstart, hshift, hend]

/-- The hour field of a local reading is between 0 and 23. -/
theorem hourFromTime_bounds (lt : Int) : 0 ≤ hourFromTime lt ∧ hourFromTime lt < 24 := by
  unfold hourFromTime; omega

/-- The minute field of a local reading is between 0 and 59. -/
theorem minFromTime_bounds (lt : Int) : 0 ≤ minFromTime lt ∧ minFromTime lt < 60 := by
  unfold minFromTime; omega

/-- The rendered 12-hour hour is one of "12", "1", ..., "11" — one or two digits,
never zero-padded — and uses only characters from the allowed set. -/
theorem hour12_string_props (hh : Int) (h0 : 0 ≤ hh) (h1 : hh < 24) :
    toString (hour12 hh)
      ∈ (["12", "1", "2", "3", "4", "5", "6", "7", "8", "9", "10", "11"] : List String)
    ∧ ∀ c ∈ (toString (hour12 hh)).data, c ∈ allowedChars := by
  interval_cases hh <;> exact ⟨by decide, by decide⟩

/-- The rendered minute is always exactly two digits, zero-padded. -/
theorem pad2_props (n : Int) (h0 : 0 ≤ n) (h1 : n < 60) :
    (pad2 n).length = 2 ∧ ∀ c ∈ (pad2 n).data, c ∈ allowedChars := by
  interval_cases n <;> exact ⟨by decide, by decide⟩

/-- The day-period marker is "AM" or "PM" and uses only allowed characters. -/
theorem meridiem_props (hh : Int) :
    (meridiem hh = "AM" ∨ meridiem hh = "PM")
    ∧ ∀ c ∈ (meridiem hh).data, c ∈ allowedChars := by
  unfold meridiem
  by_cases h : hh < 12
  · rw [if_pos h]; exact ⟨Or.inl rfl, by decide⟩
  · rw [if_neg h]; exact ⟨Or.inr rfl, by decide⟩

/-- C1 counterexample: the claim's zone-parametric reading is false at a
concrete input. At 2025-07-01T12:00Z the specification's formula for zone
America/New_York says daylight saving is active, but the program's `isInDST`,
running on a host with a constant zero offset (a UTC host), returns `false`:
the zone plays no part in the program's answer. -/
theorem C1_counterexample :
    isDaylightSavingSpec ny2025 1751371200000 = true
    ∧ isInDST (fixedZone 0) 1751371200000 = false := ⟨by decide, by decide⟩

/-- C1 (amended): `isInDST` evaluates the specification's invariant over the
host environment's own zone, the only zone it consults: it returns `true`
exactly when the host offset at `t` differs from the maximum of the host
offsets at January 1 and July 1 of `t`'s host-local year, and for a host whose
offset function is constant (no DST) it returns `false` at every instant. -/
theorem C1_host_dst_invariant (H : Zone) (t : Int) :
    (isInDST H t = true ↔ H.offAt t ≠ max (janOffset H t) (julOffset H t))
    ∧ ((∀ u, H.offAt u = H.offAt t) → isInDST H t = false) := by
  constructor
  · unfold isInDST
    rw [bne_iff_ne]
    exact ne_comm
  · intro hconst
    have h1 : janOffset H t = H.offAt t := hconst _
    have h2 : julOffset H t = H.offAt t := hconst _
    unfold isInDST
    rw [h1, h2, max_self]
    simp

/-- C1 witness: the amended theorem applied to the constant-offset host at
instant 0 discharges its constancy hypothesis. -/
theorem C1_witness : isInDST (fixedZone 0) 0 = false :=
  (C1_host_dst_invariant (fixedZone 0) 0).2 (fun _ => rfl)

/-- C2 counterexample: with a UTC host and zone America/New_York at reference
2025-01-15T12:00Z, the day window starts at 2025-01-15T00:00Z, whose local
reading in the requested zone is 19:00:00.000 of the previous day — not local
midnight of the zone. -/
theorem C2_counterexample :
    createUserTimezoneDay (fixedZone 0) db0 "America/New_York" 0 1736942400000
      = .ok ⟨1736899200000, 1736985599999, "America/New_York", "EST"⟩
    ∧ timeWithinDay (localTime ny2025 1736899200000) = 68400000 := ⟨rfl, by decide⟩

/-- C2 (amended): the single-day window does project to local 00:00:00.000 and
23:59:59.999 of one and the same local calendar day, but only in the host
environment's zone: when the requested name resolves to the host zone itself
and that zone is coherent, the window's start has local time-of-day 0, its end
has local time-of-day 86399999 ms, and both fall on the same local day number. -/
theorem C2_day_window_local_bounds (H : Zone) (db : TZDB) (name : String) (now : Int)
    (hdb : db name = some H) (hC : Coherent H) :
    ∃ w, createUserTimezoneDay H db name 0 now = .ok w ∧
      timeWithinDay (localTime H w.start) = 0 ∧
      timeWithinDay (localTime H w.«end») = 86399999 ∧
      dayNumber (localTime H w.start) = dayNumber (localTime H w.«end») := by
  refine ⟨_, createUserTimezoneDay_eq H H db name 0 now hdb hC, ?_, ?_, ?_⟩
  · show timeWithinDay (localTime H (utcFromLocal H (msPerDay * (anchorDay H H now + 0)))) = 0
    rw [coherent_localTime_utcFromLocal hC]
    unfold timeWithinDay msPerDay
    omega
  · show timeWithinDay
        (localTime H (utcFromLocal H (msPerDay * (anchorDay H H now + 0) + 86399999))) = 86399999
    rw [coherent_localTime_utcFromLocal hC]
    unfold timeWithinDay msPerDay
    omega
  · show dayNumber (localTime H (utcFromLocal H (msPerDay * (anchorDay H H now + 0))))
      = dayNumber (localTime H (utcFromLocal H (msPerDay * (anchorDay H H now + 0) + 86399999)))
    rw [coherent_localTime_utcFromLocal hC, coherent_localTime_utcFromLocal hC]
    unfold dayNumber msPerDay
    omega

/-- C2 witness: the amended theorem applied to a UTC host resolving the name
"UTC" to itself at reference 2025-01-15T12:00Z. -/
theorem C2_witness :
    ∃ w, createUserTimezoneDay (fixedZone 0) db0 "UTC" 0 1736942400000 = .ok w ∧
      timeWithinDay (localTime (fixedZone 0) w.start) = 0 ∧
      timeWithinDay (localTime (fixedZone 0) w.«end») = 86399999 ∧
      dayNumber (localTime (fixedZone 0) w.start) = dayNumber (localTime (fixedZone 0) w.«end») :=
  C2_day_window_local_bounds (fixedZone 0) db0 "UTC" 1736942400000 rfl (fun _ => rfl)

/-- C3 counterexample: with zone America/New_York and reference
2025-01-15T12:00Z but a UTC host, the day window starts at 1736899200000
(2025-01-15T00:00:00Z), not the claimed 1736917200000 (2025-01-15T05:00:00Z):
the zone argument alone does not determine the claimed values. -/
theorem C3_counterexample :
    createUserTimezoneDay (fixedZone 0) db0 "America/New_York" 0 1736942400000
      = .ok ⟨1736899200000, 1736985599999, "America/New_York", "EST"⟩
    ∧ (1736899200000 : Int) ≠ 1736917200000 := ⟨rfl, by decide⟩

/-- C3 (amended): when the host environment itself runs the 2025 US Eastern
rules, the day window for America/New_York at reference 2025-01-15T12:00Z is
exactly as the claim states: start 2025-01-15T05:00:00.000Z (1736917200000),
end 2025-01-16T04:59:59.999Z (1737003599999), label "EST". -/
theorem C3_eastern_host_concrete :
    createUserTimezoneDay ny2025 db0 "America/New_York" 0 1736942400000
      = .ok ⟨1736917200000, 1737003599999, "America/New_York", "EST"⟩ := rfl

/-- C4: for every resolvable zone name, coherent host, nonnegative `days` and
reference instant, the multi-day window starts where the zero-offset single-day
window starts and ends where the `days`-offset single-day window ends, and for
`days = 0` the two windows coincide entirely. -/
theorem C4_range_day_alignment (H Z : Zone) (db : TZDB) (name : String)
    (days now : Int) (hdb : db name = some Z) (hC : Coherent H) (hdays : 0 ≤ days) :
    ∃ wr w0 wk,
      createUserTimezoneDateRange H db name days now = .ok wr ∧
      createUserTimezoneDay H db name 0 now = .ok w0 ∧
      createUserTimezoneDay H db name days now = .ok wk ∧
      wr.start = w0.start ∧ wr.«end» = wk.«end» ∧ (days = 0 → wr = w0) := by
  refine ⟨_, _, _, createUserTimezoneDateRange_eq H Z db name days now hdb hC,
    createUserTimezoneDay_eq H Z db name 0 now hdb hC,
    createUserTimezoneDay_eq H Z db name days now hdb hC, ?_, ?_, ?_⟩
  · simp
  · rfl
  · intro h; subst h; simp

/-- C4 witness: the alignment theorem applied to a UTC host, the name "UTC",
`days = 2` and reference 2025-01-15T12:00Z. -/
theorem C4_witness :
    ∃ wr w0 wk,
      createUserTimezoneDateRange (fixedZone 0) db0 "UTC" 2 1736942400000 = .ok wr ∧
      createUserTimezoneDay (fixedZone 0) db0 "UTC" 0 1736942400000 = .ok w0 ∧
      createUserTimezoneDay (fixedZone 0) db0 "UTC" 2 1736942400000 = .ok wk ∧
      wr.start = w0.start ∧ wr.«end» = wk.«end» ∧ ((2 : Int) = 0 → wr = w0) :=
  C4_range_day_alignment (fixedZone 0) (fixedZone 0) db0 "UTC" 2 1736942400000 rfl
    (fun _ => rfl) (by norm_num)

/-- C5 counterexample: `createUserTimezoneDateRange` with `days = -1` on a UTC
host does not fail — it returns a window whose end (-1, the last millisecond of
the previous day) precedes its start (0). -/
theorem C5_counterexample :
    createUserTimezoneDateRange (fixedZone 0) db0 "UTC" (-1) 0
      = .ok ⟨0, -1, "UTC", "EST"⟩ ∧ (-1 : Int) < 0 := ⟨rfl, by decide⟩

/-- C5 (amended): the range constructor performs no validation of `days`: for
every negative `days`, on a fixed-offset host it silently returns (no error) a
window whose end strictly precedes its start. -/
theorem C5_negative_days_inverted (H Z : Zone) (db : TZDB) (name : String)
    (days now c : Int) (hdb : db name = some Z)
    (hA : ∀ u, H.offAt u = c) (hL : ∀ u, H.offAtLocal u = c) (hdays : days < 0) :
    ∃ w, createUserTimezoneDateRange H db name days now = .ok w ∧ w.«end» < w.start := by
  have hC : Coherent H := fun lt => by rw [hA, hL]
  refine ⟨_, createUserTimezoneDateRange_eq H Z db name days now hdb hC, ?_⟩
  show utcFromLocal H (msPerDay * (anchorDay H Z now + days) + 86399999)
      < utcFromLocal H (msPerDay * anchorDay H Z now)
  unfold utcFromLocal
  rw [hL, hL]
  unfold msPerDay
  omega

/-- C5 witness: the amended theorem applied to a UTC host with `days = -1` at
reference instant 0. -/
theorem C5_witness :
    ∃ w, createUserTimezoneDateRange (fixedZone 0) db0 "UTC" (-1) 0 = .ok w
      ∧ w.«end» < w.start :=
  C5_negative_days_inverted (fixedZone 0) (fixedZone 0) db0 "UTC" (-1) 0 0 rfl
    (fun _ => rfl) (fun _ => rfl) (by norm_num)

/-- C6 counterexample: the claim demands that every operation fail on an
unresolvable zone identifier, but the label and DST operations resolve no zone
at all: with a database that does not know "Mars/Phobos", `getTimezoneLabel`
still returns the ordinary result "EST" and `isInDST` returns `false` on a UTC
host — neither can fail with an invalid-zone error. -/
theorem C6_counterexample :
    db0 "Mars/Phobos" = none
    ∧ getTimezoneLabel (fixedZone 0) 0 = "EST"
    ∧ isInDST (fixedZone 0) 0 = false := ⟨rfl, by decide, by decide⟩

/-- C6 (amended): the window constructors and the display formatter do fail
with the platform's invalid-timezone error when the name is unresolvable, but
`isInDST` and `getTimezoneLabel` take no zone and always return a host-derived
result. -/
theorem C6_unresolvable_zone (H : Zone) (db : TZDB) (name : String)
    (days k now t : Int) (hdb : db name = none) :
    createUserTimezoneDateRange H db name days now = .error .invalidTimeZone
    ∧ createUserTimezoneDay H db name k now = .error .invalidTimeZone
    ∧ toLocaleTimeStringByName db name t = .error .invalidTimeZone
    ∧ getTimezoneLabel H t = (if isInDST H t then "EDT" else "EST") := by
  unfold createUserTimezoneDateRange createUserTimezoneDay toLocaleParse toLocaleTimeStringByName
  rw [hdb]
  exact ⟨rfl, rfl, rfl, rfl⟩

/-- C6 witness: the amended theorem applied to the name "Mars/Phobos", which
the concrete database does not resolve. -/
theorem C6_witness :
    createUserTimezoneDateRange ny2025 db0 "Mars/Phobos" 7 0 = .error .invalidTimeZone
    ∧ createUserTimezoneDay ny2025 db0 "Mars/Phobos" 0 0 = .error .invalidTimeZone
    ∧ toLocaleTimeStringByName db0 "Mars/Phobos" 0 = .error .invalidTimeZone
    ∧ getTimezoneLabel ny2025 0 = (if isInDST ny2025 0 then "EDT" else "EST") :=
  C6_unresolvable_zone ny2025 db0 "Mars/Phobos" 7 0 0 0 rfl

/-- C7 counterexample: on a 2025 US Eastern host at 2025-11-02T17:00Z (noon EST
on the fall-back day), the day window's label is "EST" — the abbreviation at
the reference instant — while `getTimezoneLabel` at the window's start
(2025-11-02T04:00Z, midnight EDT) is "EDT". The label is not the one valid at
start. -/
theorem C7_counterexample :
    createUserTimezoneDay ny2025 db0 "America/New_York" 0 1762102800000
      = .ok ⟨1762056000000, 1762145999999, "America/New_York", "EST"⟩
    ∧ getTimezoneLabel ny2025 1762056000000 = "EDT" := ⟨rfl, by decide⟩

/-- C7 (amended): both window constructors set the window's label to
`getTimezoneLabel` evaluated at the reference instant in the host environment —
not at the window's start instant and not in the window's zone. -/
theorem C7_label_at_reference_now (H Z : Zone) (db : TZDB) (name : String)
    (k days now : Int) (hdb : db name = some Z) :
    ∃ w1 w2, createUserTimezoneDay H db name k now = .ok w1
      ∧ w1.timezoneLabel = getTimezoneLabel H now
      ∧ createUserTimezoneDateRange H db name days now = .ok w2
      ∧ w2.timezoneLabel = getTimezoneLabel H now := by
  unfold createUserTimezoneDay createUserTimezoneDateRange
  rw [toLocaleParse_ok H now hdb]
  exact ⟨_, _, rfl, rfl, rfl, rfl⟩

/-- C7 witness: the amended theorem applied to a UTC host and the name "UTC"
at reference 2025-01-15T12:00Z. -/
theorem C7_witness :
    ∃ w1 w2, createUserTimezoneDay (fixedZone 0) db0 "UTC" 3 1736942400000 = .ok w1
      ∧ w1.timezoneLabel = getTimezoneLabel (fixedZone 0) 1736942400000
      ∧ createUserTimezoneDateRange (fixedZone 0) db0 "UTC" 3 1736942400000 = .ok w2
      ∧ w2.timezoneLabel = getTimezoneLabel (fixedZone 0) 1736942400000 :=
  C7_label_at_reference_now (fixedZone 0) (fixedZone 0) db0 "UTC" 3 3 1736942400000 rfl

/-- C8 counterexample: for a host zone with a constant zero offset — a zone
whose standard/daylight abbreviation pair is certainly not the hardcoded
Eastern pair — `getTimezoneLabel` does not fail with any unsupported-label
error: it returns the guessed abbreviation "EST". -/
theorem C8_counterexample : getTimezoneLabel (fixedZone 0) 1751371200000 = "EST" := by decide

/-- C8 (amended): `getTimezoneLabel` never fails for any host environment and
instant: it always returns one of the two hardcoded strings, "EDT" exactly when
`isInDST` holds and "EST" otherwise, with no notion of an unsupported zone. -/
theorem C8_label_never_fails (H : Zone) (t : Int) :
    (getTimezoneLabel H t = "EDT" ∨ getTimezoneLabel H t = "EST")
    ∧ (getTimezoneLabel H t = "EDT" ↔ isInDST H t = true) := by
  unfold getTimezoneLabel
  by_cases h : isInDST H t = true
  · rw [if_pos h]
    exact ⟨Or.inl rfl, by simp [h]⟩
  · rw [if_neg h]
    refine ⟨Or.inr rfl, ?_⟩
    simp only [h, iff_false]
    decide

/-- C9: the embedded `toLocaleTimeString` call renders the instant's local
clock fields as an unpadded 12-hour hour (one of "12", "1", ..., "11"), a
colon, an always-two-digit zero-padded minute, a space and an AM/PM marker;
every character of the output is a digit, ":", " ", "A", "P" or "M" — so the
output contains no timezone abbreviation — and the caller-side display string
appends the window label separately, outside the formatted times. -/
theorem C9_format_shape (z : Zone) (t1 t2 : Int) (label : String) :
    (∃ hs ms ap,
      toLocaleTimeStringHM z t1 = hs ++ ":" ++ ms ++ " " ++ ap
      ∧ hs ∈ (["12", "1", "2", "3", "4", "5", "6", "7", "8", "9", "10", "11"] : List String)
      ∧ ms.length = 2
      ∧ (ap = "AM" ∨ ap = "PM"))
    ∧ (∀ c ∈ (toLocaleTimeStringHM z t1).data, c ∈ allowedChars)
    ∧ displayTime z t1 t2 label
        = toLocaleTimeStringHM z t1 ++ " - " ++ toLocaleTimeStringHM z t2 ++ " " ++ label := by
  have hb := hourFromTime_bounds (localTime z t1)
  have mb := minFromTime_bounds (localTime z t1)
  have h12 := hour12_string_props _ hb.1 hb.2
  have hp2 := pad2_props _ mb.1 mb.2
  have hm := meridiem_props (hourFromTime (localTime z t1))
  refine ⟨⟨_, _, _, rfl, h12.1, hp2.1, hm.1⟩, ?_, rfl⟩
  intro c hc
  unfold toLocaleTimeStringHM at hc
  simp only [String.data_append, List.mem_append] at hc
  rcases hc with (((hc | hc) | hc) | hc) | hc
  · exact h12.2 c hc
  · simp only [List.mem_singleton] at hc; subst hc; decide
  · exact hp2.2 c hc
  · simp only [List.mem_singleton] at hc; subst hc; decide
  · exact hm.2 c hc

/-- C10: the DST determination and the window labels are computed solely from
the host environment at the reference instant: for any two resolvable zone
names, the day windows and the range windows carry identical `timezoneLabel`
values, each equal to `getTimezoneLabel` of the host at the reference instant
(and `isInDST`, which that label is defined from, takes no zone argument at
all). -/
theorem C10_zone_argument_ignored (H Z1 Z2 : Zone) (db : TZDB) (z1 z2 : String)
    (k days now : Int) (hdb1 : db z1 = some Z1) (hdb2 : db z2 = some Z2) :
    ∃ w1 w2 r1 r2,
      createUserTimezoneDay H db z1 k now = .ok w1
      ∧ createUserTimezoneDay H db z2 k now = .ok w2
      ∧ createUserTimezoneDateRange H db z1 days now = .ok r1
      ∧ createUserTimezoneDateRange H db z2 days now = .ok r2
      ∧ w1.timezoneLabel = w2.timezoneLabel
      ∧ r1.timezoneLabel = r2.timezoneLabel
      ∧ w1.timezoneLabel = getTimezoneLabel H now
      ∧ r1.timezoneLabel = getTimezoneLabel H now := by
  unfold createUserTimezoneDay createUserTimezoneDateRange
  rw [toLocaleParse_ok H now hdb1, toLocaleParse_ok H now hdb2]
  exact ⟨_, _, _, _, rfl, rfl, rfl, rfl, rfl, rfl, rfl, rfl⟩

/-- C10 witness: the theorem applied to a UTC host with the two names "UTC" and
"America/New_York", which resolve to different zones, at reference
2025-01-15T12:00Z. -/
theorem C10_witness :
    ∃ w1 w2 r1 r2,
      createUserTimezoneDay (fixedZone 0) db0 "UTC" 0 1736942400000 = .ok w1
      ∧ createUserTimezoneDay (fixedZone 0) db0 "America/New_York" 0 1736942400000 = .ok w2
      ∧ createUserTimezoneDateRange (fixedZone 0) db0 "UTC" 3 1736942400000 = .ok r1
      ∧ createUserTimezoneDateRange (fixedZone 0) db0 "America/New_York" 3 1736942400000 = .ok r2
      ∧ w1.timezoneLabel = w2.timezoneLabel
      ∧ r1.timezoneLabel = r2.timezoneLabel
      ∧ w1.timezoneLabel = getTimezoneLabel (fixedZone 0) 1736942400000
      ∧ r1.timezoneLabel = getTimezoneLabel (fixedZone 0) 1736942400000 :=
  C10_zone_argument_ignored (fixedZone 0) (fixedZone 0) ny2025 db0 "UTC" "America/New_York" 0 3
    1736942400000 rfl rfl


end EA
